import Mathlib

/-!
# Verification of the `manifold` PostEra API client core

A shallow embedding of the pure core of the `manifold` Python package
(`manifold.py`, `exactsearch.py`, `syntheticaccessibility.py`): the batching
utility, the JSON-record parsers, and the status-code-driven response
classification of the API wrappers.  The HTTP transport is external; a wrapper
run is modelled as a function of the response (status code plus decoded body).

JSON values are modelled by `JValue`.  Python runtime errors that the code can
raise or catch are collapsed into `PyErr`: a missing dict key is `keyError`,
and the various `TypeError`/`AttributeError` failures that Python raises when a
value of an unexpected primitive shape is indexed, iterated or converted are
all collapsed into `typeError` (no property distinguishes them).  Python's
`float()` also accepts numeric strings; no record shape exercised by the
library carries a numeric string where `float()` is applied, so the string
case is modelled as a conversion failure alongside the other
non-numeric shapes.
-/

/-- A JSON value as decoded from a response body.  Numbers are modelled as
rationals; no property proved here performs float arithmetic. -/
inductive JValue where
  | null : JValue
  | bool : Bool → JValue
  | num : Rat → JValue
  | str : String → JValue
  | arr : List JValue → JValue
  | obj : List (String × JValue) → JValue

/-- The Python exceptions the library raises, catches or lets propagate.
`invalidSmilesError` is `InvalidSmilesError`, `tooManyRequestsError` is
`TooManyRequestsError` (both from `manifold.py`); both carry the raw JSON
value passed to the constructor. -/
inductive PyErr where
  | keyError : PyErr
  | typeError : PyErr
  | jsonDecodeError : PyErr
  | valueError : String → PyErr
  | invalidSmilesError : JValue → PyErr
  | tooManyRequestsError : JValue → PyErr

/-- Association-list lookup: the value stored under key `k`, if any.
Models Python dict lookup (first binding wins). -/
def dictFind (d : List (String × JValue)) (k : String) : Option JValue :=
  match d with
  | [] => none
  | (k2, v) :: rest => if k2 = k then some v else dictFind rest k

/-- Models Python `d.get(k, default)`: the stored value when the key is
present (even when that value is JSON null), the default otherwise. -/
def dictGetD (d : List (String × JValue)) (k : String) (default : JValue) : JValue :=
  match dictFind d k with
  | some v => v
  | none => default

/-- Models Python `k in d`. -/
def dictHas (d : List (String × JValue)) (k : String) : Bool :=
  (dictFind d k).isSome

/-- Models Python `d[k]`: `KeyError` when the key is absent. -/
def dictGet (d : List (String × JValue)) (k : String) : Except PyErr JValue :=
  match dictFind d k with
  | some v => .ok v
  | none => .error .keyError

/-- Views a JSON value as an object; any other shape collapses to
`typeError` (Python would raise `TypeError`/`AttributeError` when the code
indexes or `.get`s a non-dict). -/
def asObj (v : JValue) : Except PyErr (List (String × JValue)) :=
  match v with
  | .obj d => .ok d
  | _ => .error .typeError

/-- Views a JSON value as an array; any other shape collapses to
`typeError` (Python would fail when the code iterates a non-list). -/
def asArr (v : JValue) : Except PyErr (List JValue) :=
  match v with
  | .arr xs => .ok xs
  | _ => .error .typeError

/-- Models Python `float(v)`: numbers and booleans convert, `None`, lists and
dicts raise `TypeError`.  Numeric strings would convert in Python; no record
shape used by the library carries one, and the string case is collapsed into
the failure branch. -/
def pyFloat (v : JValue) : Except PyErr Rat :=
  match v with
  | .num q => .ok q
  | .bool b => .ok (if b then 1 else 0)
  | _ => .error .typeError

/-- Models Python `bool(v)` (truthiness). -/
def pyTruthy (v : JValue) : Bool :=
  match v with
  | .null => false
  | .bool b => b
  | .num q => q != 0
  | .str s => s != ""
  | .arr xs => !xs.isEmpty
  | .obj d => !d.isEmpty

/-- `ManifoldInchiKeyMatches` dataclass from `exactsearch.py`. -/
structure ManifoldInchiKeyMatches where
  is_exact : Bool
  parent : Bool
  connectivity : Bool

/-- `ManifoldSupplierPurchaseInfo` dataclass from `exactsearch.py`.  The
source stores `item["scrPriceRange"]` without conversion, so the price field
keeps the raw JSON value. -/
structure ManifoldSupplierPurchaseInfo where
  lead_time_weeks : Rat
  price_information : JValue
  is_building_block : Bool
  is_screening : Bool

/-- `ManifoldCatalogEntry` dataclass from `exactsearch.py`.  The string-ish
fields are stored as the raw JSON values the source assigns (Python performs
no conversion on them).  The Python field `match` is a Lean keyword and is
named `match_info` here, after the local variable the source builds it from. -/
structure ManifoldCatalogEntry where
  supplier : JValue
  id : JValue
  smiles : JValue
  link : JValue
  purchase_info : Option ManifoldSupplierPurchaseInfo
  match_info : Option ManifoldInchiKeyMatches

/-- `parse_supplier_purchase_information` from `exactsearch.py`.  The `try`
block catches only `KeyError` (returning `None`); a `TypeError` raised by
`float(...)` on a present but non-numeric value propagates. -/
def parse_supplier_purchase_information (item : List (String × JValue)) :
    Except PyErr (Option ManifoldSupplierPurchaseInfo) :=
  match dictGet item "scrLeadTimeWeeks" with
  | .error _ => .ok none
  | .ok v =>
    match pyFloat v with
    | .error e => .error e
    | .ok lead_time =>
      match dictGet item "scrPriceRange" with
      | .error _ => .ok none
      | .ok price_information =>
        match dictGet item "isBuildingBlock" with
        | .error _ => .ok none
        | .ok bb =>
          match dictGet item "isScreening" with
          | .error _ => .ok none
          | .ok scr =>
            .ok (some ⟨lead_time, price_information, pyTruthy bb, pyTruthy scr⟩)

/-- `_parse_inchi_matches` from `exactsearch.py`: all three keys are read with
plain indexing, so a missing key propagates a `KeyError`. -/
def parse_inchi_matches (value : List (String × JValue)) :
    Except PyErr ManifoldInchiKeyMatches :=
  match dictGet value "exact" with
  | .error e => .error e
  | .ok e =>
    match dictGet value "parent" with
    | .error e2 => .error e2
    | .ok p =>
      match dictGet value "connectivity" with
      | .error e3 => .error e3
      | .ok c => .ok ⟨pyTruthy e, pyTruthy p, pyTruthy c⟩

/-- The loop body of `_parse_catalog_entries` from `exactsearch.py`, for one
item of the `results` list. -/
def parse_catalog_entry (item : JValue) : Except PyErr ManifoldCatalogEntry :=
  match asObj item with
  | .error e => .error e
  | .ok d =>
    let catalog_name := dictGetD d "catalogName" (.str "N/A")
    let catalog_id := dictGetD d "catalogId" (.str "N/A")
    let link := dictGetD d "link" (.str "N/A")
    let smiles := dictGetD d "smiles" (.str "")
    let step1 : Except PyErr (Option ManifoldInchiKeyMatches) :=
      match dictGetD d "inchikeyMatches" .null with
      | .null => .ok none
      | v =>
        match asObj v with
        | .error e => .error e
        | .ok vd =>
          match parse_inchi_matches vd with
          | .error e => .error e
          | .ok m => .ok (some m)
    match step1 with
    | .error e => .error e
    | .ok match_info =>
      let step2 : Except PyErr (Option ManifoldSupplierPurchaseInfo) :=
        match dictGetD d "purchaseInfo" .null with
        | .null => .ok none
        | v =>
          match asObj v with
          | .error e => .error e
          | .ok vd => parse_supplier_purchase_information vd
      match step2 with
      | .error e => .error e
      | .ok purchase_information =>
        .ok ⟨catalog_name, catalog_id, smiles, link, purchase_information, match_info⟩

/-- `_parse_catalog_entries` from `exactsearch.py`: one entry per item, in
order; the first failing item aborts the whole parse (Python propagates). -/
def parse_catalog_entries (values : List JValue) :
    Except PyErr (List ManifoldCatalogEntry) :=
  match values with
  | [] => .ok []
  | item :: rest =>
    match parse_catalog_entry item with
    | .error e => .error e
    | .ok entry =>
      match parse_catalog_entries rest with
      | .error e => .error e
      | .ok entries => .ok (entry :: entries)

/-- `ManifoldSyntheticAccessibility` dataclass from `syntheticaccessibility.py`.
The source assigns the looked-up JSON values without conversion (so a stored
JSON null stays null), and models an absent optional field as `None`; both are
represented here by the raw `JValue`, with `.null` for absence. -/
structure ManifoldSyntheticAccessibility where
  score : JValue
  num_steps : JValue
  warning : JValue
  url : JValue

/-- `parse_synthetic_accessibility` from `syntheticaccessibility.py`. -/
def parse_synthetic_accessibility (sa_entry : List (String × JValue)) :
    Except PyErr ManifoldSyntheticAccessibility :=
  let num_steps := dictGetD sa_entry "minNumSteps" .null
  let warning := dictGetD sa_entry "SAAlertLevel" .null
  if dictHas sa_entry "fastSAScore" then
    .ok ⟨dictGetD sa_entry "fastSAScore" (.num 1), num_steps, warning,
         dictGetD sa_entry "SAAlertImgURL" .null⟩
  else if dictHas sa_entry "score" then
    .ok ⟨dictGetD sa_entry "score" (.num 1), num_steps, warning,
         dictGetD sa_entry "manifoldLink" .null⟩
  else
    .error (.valueError "Could not parse synthetic accessibility.")

/-- The loop body of `parse_synthetic_accessibilities` for one wrapper record:
`sa_data["SAData"]` with only `KeyError` caught (yielding the `none`
placeholder); any error from parsing a present `SAData` value propagates. -/
def parse_sa_item (sa_data : JValue) :
    Except PyErr (Option ManifoldSyntheticAccessibility) :=
  match asObj sa_data with
  | .error e => .error e
  | .ok d =>
    match dictFind d "SAData" with
    | none => .ok none
    | some v =>
      match asObj v with
      | .error e => .error e
      | .ok vd =>
        match parse_synthetic_accessibility vd with
        | .error e => .error e
        | .ok r => .ok (some r)

/-- `parse_synthetic_accessibilities` from `syntheticaccessibility.py`: one
result per wrapper record, in order; the first propagating error aborts. -/
def parse_synthetic_accessibilities (sa_entries : List JValue) :
    Except PyErr (List (Option ManifoldSyntheticAccessibility)) :=
  match sa_entries with
  | [] => .ok []
  | e :: rest =>
    match parse_sa_item e with
    | .error err => .error err
    | .ok r =>
      match parse_synthetic_accessibilities rest with
      | .error err => .error err
      | .ok rs => .ok (r :: rs)

/-- An HTTP response as the wrappers see it: the status code and the decoded
JSON body, `none` when `response.json()` raises a `JSONDecodeError`. -/
structure HttpResponse where
  status_code : Nat
  decoded : Option JValue

/-- The response-handling logic of `ExactSearch.__init__` from
`exactsearch.py` (everything after the transport call): a decode failure
yields `[]`; status 422 raises `InvalidSmilesError(results["error"])`;
status 500 yields `[]`; otherwise the entries parsed from
`results.get("results", [])`. -/
def exact_search_parse_response (response : HttpResponse) :
    Except PyErr (List ManifoldCatalogEntry) :=
  match response.decoded with
  | none => .ok []
  | some results =>
    if response.status_code = 422 then
      match asObj results with
      | .error e => .error e
      | .ok d =>
        match dictGet d "error" with
        | .error e => .error e
        | .ok msg => .error (.invalidSmilesError msg)
    else if response.status_code = 500 then .ok []
    else
      match asObj results with
      | .error e => .error e
      | .ok d =>
        match asArr (dictGetD d "results" (.arr [])) with
        | .error e => .error e
        | .ok items => parse_catalog_entries items

/-- `SyntheticAccessibility._parse_response` from
`syntheticaccessibility.py`: a decode failure yields `None`; status 500
yields `None`; status 422 raises `InvalidSmilesError(results["error"])`; any
other status first raises `TooManyRequestsError(results["detail"])` when the
body has a `detail` key, and otherwise parses the body as a
synthetic-accessibility record. -/
def sa_parse_response (response : HttpResponse) :
    Except PyErr (Option ManifoldSyntheticAccessibility) :=
  match response.decoded with
  | none => .ok none
  | some results =>
    if response.status_code = 500 then .ok none
    else if response.status_code = 422 then
      match asObj results with
      | .error e => .error e
      | .ok d =>
        match dictGet d "error" with
        | .error e => .error e
        | .ok msg => .error (.invalidSmilesError msg)
    else
      match asObj results with
      | .error e => .error e
      | .ok d =>
        if dictHas d "detail" then
          .error (.tooManyRequestsError (dictGetD d "detail" .null))
        else
          match parse_synthetic_accessibility d with
          | .error e => .error e
          | .ok r => .ok (some r)

/-- The inner loop body of `ExactSearchBatch.__init__` from `exactsearch.py`,
for one item of a batch response's `results` list: an item with an `error`
key contributes an empty placeholder list; otherwise its `catalogEntries`
are parsed. -/
def exact_search_batch_item (item : JValue) :
    Except PyErr (List ManifoldCatalogEntry) :=
  match asObj item with
  | .error e => .error e
  | .ok d =>
    if dictHas d "error" then .ok []
    else
      match dictGet d "catalogEntries" with
      | .error e => .error e
      | .ok ce =>
        match asArr ce with
        | .error e => .error e
        | .ok entries => parse_catalog_entries entries

/-- The inner loop of `ExactSearchBatch.__init__` over a batch response's
`results` list, appending one per-query result per item, in order. -/
def exact_search_batch_items (items : List JValue) :
    Except PyErr (List (List ManifoldCatalogEntry)) :=
  match items with
  | [] => .ok []
  | item :: rest =>
    match exact_search_batch_item item with
    | .error e => .error e
    | .ok r =>
      match exact_search_batch_items rest with
      | .error e => .error e
      | .ok rs => .ok (r :: rs)

/-- Handling of one batch response in `ExactSearchBatch.__init__`: the source
calls `response.json()` with no `try`, so a decode failure propagates
(`jsonDecodeError` here), and then indexes `return_values["results"]`
unconditionally — no status-code check exists on this path. -/
def exact_search_batch_response (response : HttpResponse) :
    Except PyErr (List (List ManifoldCatalogEntry)) :=
  match response.decoded with
  | none => .error .jsonDecodeError
  | some return_values =>
    match asObj return_values with
    | .error e => .error e
    | .ok d =>
      match dictGet d "results" with
      | .error e => .error e
      | .ok rs =>
        match asArr rs with
        | .error e => .error e
        | .ok items => exact_search_batch_items items

/-- The outer loop of `ExactSearchBatch.__init__` over the per-batch
responses: results accumulate across batches; the first error aborts. -/
def exact_search_batch_run (responses : List HttpResponse) :
    Except PyErr (List (List ManifoldCatalogEntry)) :=
  match responses with
  | [] => .ok []
  | r :: rest =>
    match exact_search_batch_response r with
    | .error e => .error e
    | .ok a =>
      match exact_search_batch_run rest with
      | .error e => .error e
      | .ok b => .ok (a ++ b)

/-- The consecutive slices `values[i:i+bs]` taken by `make_batches` as `i`
runs over `range(0, len(values), bs)`, for a positive step `bs` (the only
use site guards the other cases).  Each step takes the next `bs` elements
and recurses on the rest. -/
def chunkList (values : List α) (bs : Nat) : List (List α) :=
  match values with
  | [] => []
  | v :: vs => (v :: vs.take (bs - 1)) :: chunkList (vs.drop (bs - 1)) bs
termination_by values.length
decreasing_by
  simp only [List.length_drop, List.length_cons]
  omega

/-- `make_batches` from `manifold.py`.  The Python loop is
`for i in range(0, len(values), batch_size)`: a zero step makes `range`
raise `ValueError`; a negative step gives an empty range (the stop
`len(values)` is never below the start 0), so no batch is produced; a
positive step yields the consecutive slices `values[i:i+batch_size]`. -/
def make_batches (values : List String) (batch_size : Int) :
    Except PyErr (List (List String)) :=
  if batch_size = 0 then .error (.valueError "range() arg 3 must not be zero")
  else if batch_size < 0 then .ok []
  else .ok (chunkList values batch_size.toNat)

/-! ## Helper lemmas -/

theorem chunkList_flatten (values : List α) (bs : Nat) :
    (chunkList values bs).flatten = values := by
  induction values, bs using chunkList.induct with
  | case1 bs => simp [chunkList]
  | case2 bs v vs ih => simp [chunkList, ih]

theorem chunkList_eq_nil_iff (values : List α) (bs : Nat) :
    chunkList values bs = [] ↔ values = [] := by
  cases values with
  | nil => simp [chunkList]
  | cons v vs => simp [chunkList]

theorem chunkList_length (values : List α) (bs : Nat) (hbs : 1 ≤ bs) :
    (chunkList values bs).length = (values.length + bs - 1) / bs := by
  induction values, bs using chunkList.induct with
  | case1 bs => simp [chunkList, Nat.div_eq_of_lt (show bs - 1 < bs by omega)]
  | case2 bs v vs ih =>
    simp only [chunkList, List.length_cons, ih hbs, List.length_drop]
    have h1 : vs.length + 1 + bs - 1 = vs.length + bs := by omega
    rw [h1, Nat.add_div_right _ (by omega)]
    rcases Nat.lt_or_ge vs.length (bs - 1) with h | h
    · have h2 : vs.length - (bs - 1) = 0 := by omega
      rw [h2]
      rw [Nat.div_eq_of_lt (by omega), Nat.div_eq_of_lt (by omega)]
    · have h2 : vs.length - (bs - 1) + bs - 1 = vs.length := by omega
      rw [h2]

theorem chunkList_mem_length (values : List α) (bs : Nat) (hbs : 1 ≤ bs) :
    ∀ c ∈ chunkList values bs, 1 ≤ c.length ∧ c.length ≤ bs := by
  induction values, bs using chunkList.induct with
  | case1 bs => simp [chunkList]
  | case2 bs v vs ih =>
    intro c hc
    simp only [chunkList, List.mem_cons] at hc
    rcases hc with h | h
    · subst h
      simp only [List.length_cons, List.length_take]
      omega
    · exact ih hbs c h

theorem chunkList_dropLast_length (values : List α) (bs : Nat) (hbs : 1 ≤ bs) :
    ∀ c ∈ (chunkList values bs).dropLast, c.length = bs := by
  induction values, bs using chunkList.induct with
  | case1 bs => simp [chunkList]
  | case2 bs v vs ih =>
    intro c hc
    simp only [chunkList] at hc
    rcases h0 : chunkList (vs.drop (bs - 1)) bs with _ | ⟨r, rs⟩
    · rw [h0] at hc
      simp at hc
    · rw [h0] at hc
      have hsplit : List.dropLast ((v :: List.take (bs - 1) vs) :: r :: rs) =
          (v :: List.take (bs - 1) vs) :: List.dropLast (r :: rs) := rfl
      rw [hsplit] at hc
      rcases List.mem_cons.mp hc with h | h
      · subst h
        have hdrop : vs.drop (bs - 1) ≠ [] := by
          intro hnil
          rw [(chunkList_eq_nil_iff _ _).mpr hnil] at h0
          cases h0
        have hlen : bs - 1 < vs.length := by
          by_contra h1
          exact hdrop (List.drop_eq_nil_of_le (by omega))
        simp only [List.length_cons, List.length_take]
        omega
      · refine ih hbs c ?_
        rw [h0]
        exact h

theorem parse_sas_alignment (sa_entries : List JValue)
    (rs : List (Option ManifoldSyntheticAccessibility))
    (h : parse_synthetic_accessibilities sa_entries = Except.ok rs) :
    rs.length = sa_entries.length ∧
    ∀ (i : Nat) (v : JValue), sa_entries[i]? = some v →
      ∃ r, rs[i]? = some r ∧ parse_sa_item v = Except.ok r := by
  induction sa_entries generalizing rs with
  | nil =>
    rw [parse_synthetic_accessibilities] at h
    cases h
    exact ⟨rfl, by intro i v hi; simp at hi⟩
  | cons e rest ih =>
    rw [parse_synthetic_accessibilities] at h
    cases hpe : parse_sa_item e with
    | error err => rw [hpe] at h; cases h
    | ok r =>
      rw [hpe] at h
      cases hrec : parse_synthetic_accessibilities rest with
      | error err => rw [hrec] at h; cases h
      | ok rs0 =>
        rw [hrec] at h
        cases h
        obtain ⟨ihlen, ihidx⟩ := ih rs0 hrec
        refine ⟨by simp [ihlen], ?_⟩
        intro i v hi
        cases i with
        | zero =>
          simp only [List.getElem?_cons_zero, Option.some.injEq] at hi
          subst hi
          exact ⟨r, by simp, hpe⟩
        | succ j =>
          simp only [List.getElem?_cons_succ] at hi ⊢
          exact ihidx j v hi

theorem batch_items_alignment (items : List JValue)
    (rs : List (List ManifoldCatalogEntry))
    (h : exact_search_batch_items items = Except.ok rs) :
    rs.length = items.length ∧
    ∀ (i : Nat) (v : JValue), items[i]? = some v →
      ∃ r, rs[i]? = some r ∧ exact_search_batch_item v = Except.ok r := by
  induction items generalizing rs with
  | nil =>
    rw [exact_search_batch_items] at h
    cases h
    exact ⟨rfl, by intro i v hi; simp at hi⟩
  | cons e rest ih =>
    rw [exact_search_batch_items] at h
    cases hpe : exact_search_batch_item e with
    | error err => rw [hpe] at h; cases h
    | ok r =>
      rw [hpe] at h
      cases hrec : exact_search_batch_items rest with
      | error err => rw [hrec] at h; cases h
      | ok rs0 =>
        rw [hrec] at h
        cases h
        obtain ⟨ihlen, ihidx⟩ := ih rs0 hrec
        refine ⟨by simp [ihlen], ?_⟩
        intro i v hi
        cases i with
        | zero =>
          simp only [List.getElem?_cons_zero, Option.some.injEq] at hi
          subst hi
          exact ⟨r, by simp, hpe⟩
        | succ j =>
          simp only [List.getElem?_cons_succ] at hi ⊢
          exact ihidx j v hi

/-! ## Claim theorems -/

/-- C1: for every list of items and every positive batch size, `make_batches`
succeeds; concatenating its chunks reproduces the input exactly and in order;
the number of chunks is `ceil(len/batch_size)` (so an empty input yields no
batches); every chunk except possibly the last has length exactly
`batch_size`; and every chunk (the last included) has length between 1 and
`batch_size`. -/
theorem c1_make_batches_spec (values : List String) (batch_size : Int)
    (h : 0 < batch_size) :
    ∃ cs, make_batches values batch_size = Except.ok cs ∧
      cs.flatten = values ∧
      cs.length = (values.length + batch_size.toNat - 1) / batch_size.toNat ∧
      (∀ c ∈ cs.dropLast, c.length = batch_size.toNat) ∧
      (∀ c ∈ cs, 1 ≤ c.length ∧ c.length ≤ batch_size.toNat) := by
  have hbs : 1 ≤ batch_size.toNat := by omega
  refine ⟨chunkList values batch_size.toNat, ?_, chunkList_flatten _ _,
    chunkList_length _ _ hbs, chunkList_dropLast_length _ _ hbs,
    chunkList_mem_length _ _ hbs⟩
  rw [make_batches, if_neg (by omega), if_neg (by omega)]

/-- Witness for C1 at five items and batch size 2. -/
theorem c1_make_batches_spec_witness :
    ∃ cs, make_batches ["a", "b", "c", "d", "e"] 2 = Except.ok cs ∧
      cs.flatten = ["a", "b", "c", "d", "e"] ∧
      cs.length = ((["a", "b", "c", "d", "e"] : List String).length +
          (2 : Int).toNat - 1) / (2 : Int).toNat ∧
      (∀ c ∈ cs.dropLast, c.length = (2 : Int).toNat) ∧
      (∀ c ∈ cs, 1 ≤ c.length ∧ c.length ≤ (2 : Int).toNat) :=
  c1_make_batches_spec ["a", "b", "c", "d", "e"] 2 (by decide)

/-- C9 counterexample: at batch size `-1` (which is `≤ 0`) the source does
not fail: `range(0, 1, -1)` is empty, so `make_batches` returns an empty
batch list rather than raising any error. -/
theorem c9_counterexample :
    make_batches ["a"] (-1) = Except.ok [] ∧
    ∀ e, make_batches ["a"] (-1) ≠ Except.error e := by
  refine ⟨rfl, ?_⟩
  intro e h
  have h2 : Except.ok ([] : List (List String)) = Except.error e := h
  cases h2

/-- C9 (amended): for batch size 0 the source fails — `range` raises
`ValueError` — while for every negative batch size it returns an empty list
of batches without raising; it never raises a dedicated invalid-argument
error. -/
theorem c9_make_batches_nonpositive (values : List String) (batch_size : Int)
    (h : batch_size ≤ 0) :
    (batch_size = 0 →
      make_batches values batch_size =
        Except.error (PyErr.valueError "range() arg 3 must not be zero")) ∧
    (batch_size < 0 → make_batches values batch_size = Except.ok []) := by
  constructor
  · intro h0
    rw [make_batches, if_pos h0]
  · intro h0
    rw [make_batches, if_neg (by omega), if_pos h0]

/-- Witness for C9 (amended) at batch sizes 0 and -1. -/
theorem c9_make_batches_nonpositive_witness :
    make_batches ["a", "b"] 0 =
      Except.error (PyErr.valueError "range() arg 3 must not be zero") ∧
    make_batches ["a", "b"] (-1) = Except.ok [] :=
  ⟨(c9_make_batches_nonpositive ["a", "b"] 0 (by decide)).1 rfl,
   (c9_make_batches_nonpositive ["a", "b"] (-1) (by decide)).2 (by decide)⟩

/-- C2 counterexample: on the exact-search path, status 200 with body
`{"detail": "throttled"}` does not raise `TooManyRequestsError` (or anything
else): `ExactSearch.__init__` has no `detail` check, falls through to
`results.get("results", [])` and stores an empty entry list. -/
theorem c2_counterexample :
    exact_search_parse_response
      ⟨200, some (.obj [("detail", .str "throttled")])⟩ = Except.ok [] ∧
    ∀ e, exact_search_parse_response
      ⟨200, some (.obj [("detail", .str "throttled")])⟩ ≠ Except.error e := by
  refine ⟨rfl, ?_⟩
  intro e h
  have h2 : Except.ok ([] : List ManifoldCatalogEntry) = Except.error e := h
  cases h2

/-- C2 (amended): on the synthetic-accessibility single-query paths, when the
status is neither 422 nor 500 and the decoded body contains a `detail` field,
the wrapper raises `TooManyRequestsError` carrying the value of `detail`,
even at status 200; the exact-search paths perform no such check. -/
theorem c2_sa_rate_limited (status : Nat) (body : List (String × JValue))
    (msg : JValue) (h1 : status ≠ 422) (h2 : status ≠ 500)
    (h3 : dictFind body "detail" = some msg) :
    sa_parse_response ⟨status, some (.obj body)⟩ =
      Except.error (PyErr.tooManyRequestsError msg) := by
  rw [sa_parse_response]
  simp only [if_neg h2, if_neg h1]
  simp [asObj, dictHas, dictGetD, h3]

/-- Witness for C2 (amended) at status 200 and body
`{"detail": "throttled"}`. -/
theorem c2_sa_rate_limited_witness :
    sa_parse_response ⟨200, some (.obj [("detail", .str "throttled")])⟩ =
      Except.error (PyErr.tooManyRequestsError (.str "throttled")) :=
  c2_sa_rate_limited 200 [("detail", .str "throttled")] (.str "throttled")
    (by decide) (by decide) rfl

/-- C3 counterexample: on the exact-search batch path an undecodable body is
not swallowed — `ExactSearchBatch.__init__` calls `response.json()` outside
any `try`, so the decode error propagates and batch processing aborts. -/
theorem c3_counterexample :
    exact_search_batch_run [⟨500, none⟩] =
      Except.error PyErr.jsonDecodeError := rfl

/-- C3 (amended): on the single-query paths (exact search and synthetic
accessibility), a status of 500 or an undecodable body never raises: the
exact-search wrapper stores an empty result list and the
synthetic-accessibility wrapper stores no result.  The batch wrappers decode
the body without a guard, so there an undecodable body propagates a decode
error. -/
theorem c3_single_paths_degrade (status : Nat) (decoded : Option JValue)
    (h : status = 500 ∨ decoded = none) :
    exact_search_parse_response ⟨status, decoded⟩ = Except.ok [] ∧
    sa_parse_response ⟨status, decoded⟩ = Except.ok none := by
  rcases h with h | h
  · subst h
    cases decoded with
    | none => exact ⟨rfl, rfl⟩
    | some v =>
      constructor
      · rw [exact_search_parse_response]
        simp
      · rw [sa_parse_response]
        simp
  · subst h
    exact ⟨rfl, rfl⟩

/-- Witness for C3 (amended) at status 500 with a decodable body and at
status 200 with an undecodable body. -/
theorem c3_single_paths_degrade_witness :
    (exact_search_parse_response ⟨500, some (.obj [("detail", .str "x")])⟩ =
        Except.ok [] ∧
      sa_parse_response ⟨500, some (.obj [("detail", .str "x")])⟩ =
        Except.ok none) ∧
    (exact_search_parse_response ⟨200, none⟩ = Except.ok [] ∧
      sa_parse_response ⟨200, none⟩ = Except.ok none) :=
  ⟨c3_single_paths_degrade 500 (some (.obj [("detail", .str "x")])) (Or.inl rfl),
   c3_single_paths_degrade 200 none (Or.inr rfl)⟩

/-- C6: on both single-query paths, status 422 with a decoded body carrying
an `error` field raises `InvalidSmilesError` with that field's value as its
message. -/
theorem c6_invalid_input_on_422 (body : List (String × JValue)) (msg : JValue)
    (h : dictFind body "error" = some msg) :
    exact_search_parse_response ⟨422, some (.obj body)⟩ =
      Except.error (PyErr.invalidSmilesError msg) ∧
    sa_parse_response ⟨422, some (.obj body)⟩ =
      Except.error (PyErr.invalidSmilesError msg) := by
  constructor
  · rw [exact_search_parse_response]
    simp [asObj, dictGet, h]
  · rw [sa_parse_response]
    simp [asObj, dictGet, h]

/-- Witness for C6 at body `{"error": "bad smiles"}`. -/
theorem c6_invalid_input_on_422_witness :
    exact_search_parse_response
      ⟨422, some (.obj [("error", .str "bad smiles")])⟩ =
      Except.error (PyErr.invalidSmilesError (.str "bad smiles")) ∧
    sa_parse_response ⟨422, some (.obj [("error", .str "bad smiles")])⟩ =
      Except.error (PyErr.invalidSmilesError (.str "bad smiles")) :=
  c6_invalid_input_on_422 [("error", .str "bad smiles")] (.str "bad smiles") rfl

/-- C4: `parse_synthetic_accessibility` disambiguates in order — when the
`fastSAScore` key is present (whether or not `score` also is), the score is
its stored value and the url comes from `SAAlertImgURL` (null when absent);
otherwise when `score` is present, the score is its stored value and the url
comes from `manifoldLink`; otherwise the parse fails with `ValueError`. -/
theorem c4_sa_disambiguation (sa_entry : List (String × JValue)) :
    (∀ v, dictFind sa_entry "fastSAScore" = some v →
      parse_synthetic_accessibility sa_entry =
        Except.ok ⟨v, dictGetD sa_entry "minNumSteps" .null,
          dictGetD sa_entry "SAAlertLevel" .null,
          dictGetD sa_entry "SAAlertImgURL" .null⟩) ∧
    (dictFind sa_entry "fastSAScore" = none →
      ∀ v, dictFind sa_entry "score" = some v →
      parse_synthetic_accessibility sa_entry =
        Except.ok ⟨v, dictGetD sa_entry "minNumSteps" .null,
          dictGetD sa_entry "SAAlertLevel" .null,
          dictGetD sa_entry "manifoldLink" .null⟩) ∧
    (dictFind sa_entry "fastSAScore" = none →
      dictFind sa_entry "score" = none →
      parse_synthetic_accessibility sa_entry =
        Except.error (PyErr.valueError "Could not parse synthetic accessibility.")) := by
  refine ⟨?_, ?_, ?_⟩
  · intro v hv
    rw [parse_synthetic_accessibility]
    rw [if_pos (by simp [dictHas, hv])]
    simp [dictGetD, hv]
  · intro h0 v hv
    rw [parse_synthetic_accessibility]
    rw [if_neg (by simp [dictHas, h0]), if_pos (by simp [dictHas, hv])]
    simp [dictGetD, hv]
  · intro h0 h1
    rw [parse_synthetic_accessibility]
    rw [if_neg (by simp [dictHas, h0]), if_neg (by simp [dictHas, h1])]

/-- Witness for C4: the `fastSAScore` branch at a record carrying both score
keys (sourced from `fastSAScore`), and the failure branch at a record with
neither. -/
theorem c4_sa_disambiguation_witness :
    parse_synthetic_accessibility [("score", .num 3), ("fastSAScore", .num 2)] =
      Except.ok ⟨.num 2,
        dictGetD [("score", .num 3), ("fastSAScore", .num 2)] "minNumSteps" .null,
        dictGetD [("score", .num 3), ("fastSAScore", .num 2)] "SAAlertLevel" .null,
        dictGetD [("score", .num 3), ("fastSAScore", .num 2)] "SAAlertImgURL" .null⟩ ∧
    parse_synthetic_accessibility [("minNumSteps", .num 4)] =
      Except.error (PyErr.valueError "Could not parse synthetic accessibility.") :=
  ⟨(c4_sa_disambiguation [("score", .num 3), ("fastSAScore", .num 2)]).1 (.num 2) rfl,
   (c4_sa_disambiguation [("minNumSteps", .num 4)]).2.2 rfl rfl⟩

/-- C5 counterexample: a catalog item whose `purchaseInfo` sub-object lacks
three of the four required keys but holds a JSON null under
`scrLeadTimeWeeks` does raise — `float(None)` is a `TypeError`, which the
`except KeyError` clause does not catch — rather than yielding an entry with
absent purchase info. -/
theorem c5_counterexample :
    parse_catalog_entries
      [.obj [("purchaseInfo", .obj [("scrLeadTimeWeeks", JValue.null)])]] =
      Except.error PyErr.typeError := rfl

/-- C5 (amended): the asymmetry holds whenever a present `scrLeadTimeWeeks`
value is float-convertible — a purchase-info sub-object missing at least one
of its four required keys yields absent purchase info without error (whereas
a present non-convertible value such as null propagates a type error) — while
an inchikey-matches sub-object missing at least one of its three required
keys always propagates a key error. -/
theorem c5_purchase_inchi_asymmetry :
    (∀ item : List (String × JValue),
      (∀ v, dictFind item "scrLeadTimeWeeks" = some v →
        ∃ q, pyFloat v = Except.ok q) →
      (dictFind item "scrPriceRange" = none ∨
       dictFind item "isBuildingBlock" = none ∨
       dictFind item "isScreening" = none ∨
       dictFind item "scrLeadTimeWeeks" = none) →
      parse_supplier_purchase_information item = Except.ok none) ∧
    (∀ value : List (String × JValue),
      (dictFind value "exact" = none ∨ dictFind value "parent" = none ∨
       dictFind value "connectivity" = none) →
      parse_inchi_matches value = Except.error PyErr.keyError) := by
  constructor
  · intro item hfloat hmiss
    cases hlt : dictFind item "scrLeadTimeWeeks" with
    | none => simp [parse_supplier_purchase_information, dictGet, hlt]
    | some v =>
      obtain ⟨q, hq⟩ := hfloat v hlt
      rcases hmiss with h | h | h | h
      · simp [parse_supplier_purchase_information, dictGet, hlt, hq, h]
      · cases hpr : dictFind item "scrPriceRange" with
        | none => simp [parse_supplier_purchase_information, dictGet, hlt, hq, hpr]
        | some p =>
          simp [parse_supplier_purchase_information, dictGet, hlt, hq, hpr, h]
      · cases hpr : dictFind item "scrPriceRange" with
        | none => simp [parse_supplier_purchase_information, dictGet, hlt, hq, hpr]
        | some p =>
          cases hbb : dictFind item "isBuildingBlock" with
          | none =>
            simp [parse_supplier_purchase_information, dictGet, hlt, hq, hpr, hbb]
          | some b =>
            simp [parse_supplier_purchase_information, dictGet, hlt, hq, hpr, hbb, h]
      · rw [hlt] at h
        cases h
  · intro value hmiss
    rcases hmiss with h | h | h
    · simp [parse_inchi_matches, dictGet, h]
    · cases he : dictFind value "exact" with
      | none => simp [parse_inchi_matches, dictGet, he]
      | some e => simp [parse_inchi_matches, dictGet, he, h]
    · cases he : dictFind value "exact" with
      | none => simp [parse_inchi_matches, dictGet, he]
      | some e =>
        cases hp : dictFind value "parent" with
        | none => simp [parse_inchi_matches, dictGet, he, hp]
        | some p => simp [parse_inchi_matches, dictGet, he, hp, h]

/-- Witness for C5 (amended): a purchase-info record holding only a numeric
`scrLeadTimeWeeks` parses to absent purchase info, and an inchikey record
missing `parent` and `connectivity` fails with a key error. -/
theorem c5_purchase_inchi_asymmetry_witness :
    parse_supplier_purchase_information [("scrLeadTimeWeeks", .num 2)] =
      Except.ok none ∧
    parse_inchi_matches [("exact", .bool true)] =
      Except.error PyErr.keyError :=
  ⟨c5_purchase_inchi_asymmetry.1 [("scrLeadTimeWeeks", .num 2)]
      (fun v hv => by
        simp [dictFind] at hv
        subst hv
        exact ⟨2, rfl⟩)
      (Or.inl rfl),
   c5_purchase_inchi_asymmetry.2 [("exact", .bool true)] (Or.inr (Or.inl rfl))⟩

/-- C7 counterexample: a record with the `fastSAScore` key present but null
parses with score null, not the claimed default 1.0 — Python `dict.get`
returns the stored value whenever the key is present, even when it is null. -/
theorem c7_counterexample :
    ∃ r, parse_synthetic_accessibility [("fastSAScore", JValue.null)] =
        Except.ok r ∧ r.score = JValue.null ∧ r.score ≠ JValue.num 1 := by
  refine ⟨⟨.null, .null, .null, .null⟩, rfl, rfl, ?_⟩
  intro h
  cases h

/-- C7 (amended): when the `fastSAScore` key is present with a null value,
the parsed score is that stored null; the 1.0 default of `dict.get` is
unreachable on this branch, since the key's presence has already been
established. -/
theorem c7_null_fastsascore_score (sa_entry : List (String × JValue))
    (h : dictFind sa_entry "fastSAScore" = some JValue.null) :
    ∃ r, parse_synthetic_accessibility sa_entry = Except.ok r ∧
      r.score = JValue.null := by
  refine ⟨⟨dictGetD sa_entry "fastSAScore" (.num 1),
    dictGetD sa_entry "minNumSteps" .null,
    dictGetD sa_entry "SAAlertLevel" .null,
    dictGetD sa_entry "SAAlertImgURL" .null⟩, ?_, ?_⟩
  · rw [parse_synthetic_accessibility]
    rw [if_pos (by simp [dictHas, h])]
  · simp [dictGetD, h]

/-- Witness for C7 (amended) at the one-key record with a null score. -/
theorem c7_null_fastsascore_score_witness :
    ∃ r, parse_synthetic_accessibility [("fastSAScore", JValue.null)] =
        Except.ok r ∧ r.score = JValue.null :=
  c7_null_fastsascore_score [("fastSAScore", JValue.null)] rfl

/-- C8: when batch synthetic-accessibility parsing succeeds it returns one
result per input record, in order; a record lacking the `SAData` key always
yields the `none` placeholder at its position without failing; and a record
whose `SAData` sub-object parses yields that parse at its position. -/
theorem c8_sa_batch_alignment (sa_entries : List JValue)
    (rs : List (Option ManifoldSyntheticAccessibility))
    (h : parse_synthetic_accessibilities sa_entries = Except.ok rs) :
    rs.length = sa_entries.length ∧
    (∀ (i : Nat) (v : JValue), sa_entries[i]? = some v →
      ∃ r, rs[i]? = some r ∧ parse_sa_item v = Except.ok r) ∧
    (∀ d : List (String × JValue), dictFind d "SAData" = none →
      parse_sa_item (.obj d) = Except.ok none) ∧
    (∀ (d sub : List (String × JValue)) (r : ManifoldSyntheticAccessibility),
      dictFind d "SAData" = some (.obj sub) →
      parse_synthetic_accessibility sub = Except.ok r →
      parse_sa_item (.obj d) = Except.ok (some r)) := by
  obtain ⟨h1, h2⟩ := parse_sas_alignment sa_entries rs h
  refine ⟨h1, h2, ?_, ?_⟩
  · intro d hd
    simp [parse_sa_item, asObj, hd]
  · intro d sub r hd hr
    simp [parse_sa_item, asObj, hd, hr]

/-- Witness for C8 at a two-record batch: the second record's `SAData` parse
lands at position 1. -/
theorem c8_sa_batch_alignment_witness :
    ∃ r, ([none, some ⟨.num 3, .null, .null, .null⟩] :
        List (Option ManifoldSyntheticAccessibility))[1]? = some r ∧
      parse_sa_item (.obj [("SAData", .obj [("score", .num 3)])]) =
        Except.ok r :=
  (c8_sa_batch_alignment
      [.obj [("other", .null)], .obj [("SAData", .obj [("score", .num 3)])]]
      [none, some ⟨.num 3, .null, .null, .null⟩] rfl).2.1 1
    (.obj [("SAData", .obj [("score", .num 3)])]) rfl

/-- C10: when an exact-search batch response is processed successfully, the
per-query results align positionally with the `results` items; an item
carrying an `error` key always contributes an empty placeholder list, and it
does so at exactly its own position. -/
theorem c10_batch_error_placeholder (status : Nat)
    (body : List (String × JValue)) (items : List JValue)
    (rs : List (List ManifoldCatalogEntry))
    (hitems : dictFind body "results" = some (.arr items))
    (h : exact_search_batch_response ⟨status, some (.obj body)⟩ =
      Except.ok rs) :
    rs.length = items.length ∧
    (∀ d : List (String × JValue), dictHas d "error" = true →
      exact_search_batch_item (.obj d) = Except.ok []) ∧
    (∀ (i : Nat) (d : List (String × JValue)), items[i]? = some (.obj d) →
      dictHas d "error" = true → rs[i]? = some []) := by
  have hitems2 : exact_search_batch_items items = Except.ok rs := by
    rw [exact_search_batch_response] at h
    simp only [asObj, dictGet, hitems, asArr] at h
    exact h
  obtain ⟨h1, h2⟩ := batch_items_alignment items rs hitems2
  have herr : ∀ d : List (String × JValue), dictHas d "error" = true →
      exact_search_batch_item (.obj d) = Except.ok [] := by
    intro d hd
    simp [exact_search_batch_item, asObj, hd]
  refine ⟨h1, herr, ?_⟩
  intro i d hi hd
  obtain ⟨r, hr, hpi⟩ := h2 i (.obj d) hi
  rw [herr d hd] at hpi
  cases hpi
  exact hr

/-- Witness for C10 at a two-item batch response whose first item carries an
`error` key. -/
theorem c10_batch_error_placeholder_witness :
    exact_search_batch_item (.obj [("error", .str "boom")]) = Except.ok [] ∧
    ([[], []] : List (List ManifoldCatalogEntry))[0]? = some [] :=
  ⟨(c10_batch_error_placeholder 200
      [("results", .arr [.obj [("error", .str "boom")],
        .obj [("catalogEntries", .arr [])]])]
      [.obj [("error", .str "boom")], .obj [("catalogEntries", .arr [])]]
      [[], []] rfl rfl).2.1 [("error", .str "boom")] rfl,
   (c10_batch_error_placeholder 200
      [("results", .arr [.obj [("error", .str "boom")],
        .obj [("catalogEntries", .arr [])]])]
      [.obj [("error", .str "boom")], .obj [("catalogEntries", .arr [])]]
      [[], []] rfl rfl).2.2 0 [("error", .str "boom")] rfl rfl⟩
